import Mathlib

/-!
Shallow embedding of the dash-uploader python package (modules
settings.py, upload.py, callbacks.py, uploadstatus.py, utils.py)
together with theorems settling the specification claims.

Python exceptions are modelled with the Except monad; float sizes are
modelled by rational numbers; python dicts are modelled by association
lists; python list indexing is modelled by Option-valued lookup.
-/

deriving instance DecidableEq for Except

namespace DashUploader

/-- Exceptions that can escape the embedded fragments of the package. -/
inductive PyError where
  | indexError
  | zeroDivisionError
  | typeError
  | preventUpdate
  deriving Repr, DecidableEq

/-- One entry of settings.user_configs (settings.py, class UserConfig).
Only the fields read by the embedded functions are kept; the `app`
object is represented by the entry itself. -/
structure UserConfig where
  service : String
  upload_folder_root : String
  is_dash : Bool
  deriving Repr, DecidableEq

/-- The module-level mutable state of settings.py: the user_configs
list, the backward query dict and the default index. -/
structure Settings where
  user_configs : List UserConfig
  user_configs_query : List (String × Nat)
  user_configs_default : Option Nat
  deriving Repr, DecidableEq

/-- Python dict.get(key, None) over the association-list model. -/
def dictGet (d : List (String × Nat)) (k : String) : Option Nat :=
  match d with
  | [] => none
  | (k2, v) :: rest => if k2 = k then some v else dictGet rest k

/-- The index-selection logic shared verbatim by _query_service_addr
(upload.py lines 67-71) and _query_app_and_root (callbacks.py lines
47-51):
  app_idx = settings.user_configs_query.get(component_id, None)
  if app_idx is None and settings.user_configs_default is not None:
      app_idx = settings.user_configs_default
  else:
      app_idx = 0
Note that when the lookup succeeds the looked-up index is discarded and
0 is used. -/
def query_app_idx (s : Settings) (component_id : String) : Nat :=
  match dictGet s.user_configs_query component_id with
  | some _ => 0
  | none =>
    match s.user_configs_default with
    | some d => d
    | none => 0

/-- upload.py, _query_service_addr: returns
user_configs[app_idx]["service"]; none models the IndexError on an
out-of-range index. -/
def query_service_addr (s : Settings) (component_id : String) : Option String :=
  (s.user_configs.get? (query_app_idx s component_id)).map (fun c => c.service)

/-- callbacks.py, _query_app_and_root: fetches
user_configs[app_idx], raises TypeError unless the entry is a dash app,
and returns the app together with its upload_folder_root. -/
def query_app_and_root (s : Settings) (component_id : String) :
    Except PyError (UserConfig × String) :=
  match s.user_configs.get? (query_app_idx s component_id) with
  | none => .error .indexError
  | some app_item =>
    if app_item.is_dash then .ok (app_item, app_item.upload_folder_root)
    else .error .typeError

/-- uploadstatus.py, class UploadStatus (the TypedDict produced by
UploadStatusLegacy.to_dict). -/
structure UploadStatus where
  uploaded_files : List String
  latest_file : String
  n_uploaded : Nat
  n_total : Int
  upload_id : Option String
  is_completed : Bool
  uploaded_size_mb : ℚ
  total_size_mb : ℚ
  progress : ℚ
  deriving Repr, DecidableEq

/-- uploadstatus.py, UploadStatusLegacy.__init__ composed with to_dict
(to_dict only converts Path objects back to strings).  Statement order
follows the source: latest_file = uploaded_files[-1] is computed first
(IndexError on an empty list), the counters next, and
progress = uploaded_size_mb / total_size_mb last (ZeroDivisionError when
total_size_mb is zero). -/
def UploadStatusLegacy.init (uploaded_files : List String) (n_total : Int)
    (uploaded_size_mb : ℚ) (total_size_mb : ℚ) (upload_id : Option String) :
    Except PyError UploadStatus :=
  match uploaded_files.getLast? with
  | none => .error .indexError
  | some latest =>
    let n_uploaded := uploaded_files.length
    if total_size_mb = 0 then .error .zeroDivisionError
    else
      .ok
        { uploaded_files := uploaded_files
          latest_file := latest
          n_uploaded := n_uploaded
          n_total := n_total
          upload_id := upload_id
          is_completed := (n_uploaded : Int) = n_total
          uploaded_size_mb := uploaded_size_mb
          total_size_mb := total_size_mb
          progress := uploaded_size_mb / total_size_mb }

/-- pathlib path joining, root / name, for plain relative components. -/
def pathJoin (a b : String) : String := a ++ "/" ++ b

/-- callbacks.py, _create_dash_callback wrapper, lines 105-114: the list
uploadedfilepaths built from the received file names.  A None
uploaded_filenames yields the empty list; a truthy upload_id (neither
None nor the empty string) prepends root/upload_id, otherwise the bare
root folder is used. -/
def buildFilePaths (app_root_folder : String) (upload_id : Option String)
    (uploaded_filenames : Option (List String)) : List String :=
  match uploaded_filenames with
  | none => []
  | some names =>
    let root_folder :=
      match upload_id with
      | some uid => if uid = "" then app_root_folder else pathJoin app_root_folder uid
      | none => app_root_folder
    names.map (fun filename => pathJoin root_folder filename)

/-- callbacks.py, _create_dash_callback wrapper, lines 92-122: the
UploadStatus value that is handed to the user callback.  A falsy
callbackbump (the integer 0, covering the boolean False as well) raises
PreventUpdate before anything else. -/
def dashCallbackStatus (app_root_folder : String) (callbackbump : Nat)
    (uploaded_filenames : Option (List String)) (total_files_count : Int)
    (uploaded_files_size : ℚ) (total_files_size : ℚ)
    (upload_id : Option String) : Except PyError UploadStatus :=
  if callbackbump = 0 then .error .preventUpdate
  else
    UploadStatusLegacy.init
      (buildFilePaths app_root_folder upload_id uploaded_filenames)
      total_files_count uploaded_files_size total_files_size upload_id

/-- callbacks.py, _create_dash_callback wrapper, line 123: the user
callback applied to the status (when no exception escaped first). -/
def dashCallbackWrapper {T : Type} (callback : UploadStatus → T)
    (app_root_folder : String) (callbackbump : Nat)
    (uploaded_filenames : Option (List String)) (total_files_count : Int)
    (uploaded_files_size : ℚ) (total_files_size : ℚ)
    (upload_id : Option String) : Except PyError T :=
  (dashCallbackStatus app_root_folder callbackbump uploaded_filenames
    total_files_count uploaded_files_size total_files_size upload_id).map callback

/-- upload.py, the component properties assembled by Upload
(lines 184-209); only the numeric and identifying arguments are kept. -/
structure UploadArgs where
  id : String
  dashAppCallbackBump : Nat
  maxFiles : Nat
  maxTotalSize : Nat
  maxFileSize : Nat
  chunkSize : Nat
  service : String
  upload_id : String
  totalFilesCount : Nat
  deriving Repr, DecidableEq

/-- upload.py, Upload (lines 177-209): resolves the service address for
the component id and builds the argument record, with
dashAppCallbackBump initialised to 0 and the sizes scaled to bytes. -/
def uploadComponent (s : Settings) (id : String) (max_file_size : Nat)
    (max_total_size : Nat) (chunk_size : Nat) (upload_id : String)
    (max_files : Nat) : Option UploadArgs :=
  (query_service_addr s id).map fun service =>
    { id := id
      dashAppCallbackBump := 0
      maxFiles := max_files
      maxTotalSize := max_total_size * 1024 * 1024
      maxFileSize := max_file_size * 1024 * 1024
      chunkSize := chunk_size * 1024 * 1024
      service := service
      upload_id := upload_id
      totalFilesCount := 0 }

/-- utils.py, retry (lines 41-79): one run of the wrapper loop.  The
wrapped function is modelled by the outcome of its i-th call
(attempt i) together with that call's duration (dur i); elapsed is
time.time() - t0 at the top of the loop body.  The fuel argument only
bounds the number of modelled iterations: none means the loop was still
running after fuel iterations.  A successful attempt breaks the loop at
once; a failing attempt re-raises when the elapsed time exceeds
max_time, and otherwise sleeps wait_time and retries. -/
def retryRun {E A : Type} (attempt : Nat → Except E A) (dur : Nat → ℚ)
    (wait_time : ℚ) (max_time : ℚ) : Nat → Nat → ℚ → Option (Except E A)
  | 0, _, _ => none
  | fuel + 1, i, elapsed =>
    let elapsed2 := elapsed + dur i
    match attempt i with
    | .ok v => some (.ok v)
    | .error e =>
      if max_time < elapsed2 then some (.error e)
      else retryRun attempt dur wait_time max_time fuel (i + 1) (elapsed2 + wait_time)

/-- An iteration bound sufficient for the retry loop when wait_time is
positive. -/
def retryFuel (wait_time : ℚ) (max_time : ℚ) : Nat :=
  Nat.ceil (max_time / wait_time) + 2

/-- The whole wrapper call: the loop started at the first attempt with
zero elapsed time, with the sufficient bound as fuel. -/
def retryCall {E A : Type} (attempt : Nat → Except E A) (dur : Nat → ℚ)
    (wait_time : ℚ) (max_time : ℚ) : Option (Except E A) :=
  retryRun attempt dur wait_time max_time (retryFuel wait_time max_time) 0 0

/-- The elapsed time at the top of the loop body of the k-th attempt:
every earlier attempt contributed its duration plus one wait_time
sleep. -/
def elapsedBefore (dur : Nat → ℚ) (wait_time : ℚ) : Nat → ℚ
  | 0 => 0
  | k + 1 => elapsedBefore dur wait_time k + dur k + wait_time

/-- Modelled from the spec: the chunk staging of HttpRequestHandler
(dash_uploader/httprequesthandler.py is not under src/).  Chunks are
staged keyed by their 1-based index; a later write for the same index
replaces the earlier one (idempotent for identical payloads). -/
def storeChunks (arrival : List (Nat × List Nat)) : Nat → Option (List Nat) :=
  arrival.foldl
    (fun store p => fun j => if j = p.1 then some p.2 else store j)
    (fun _ => none)

/-- Modelled from the spec: the assembly step concatenates the staged
chunk payloads in ascending index order (indices 1..K) into the final
file's bytes. -/
def assembleChunks (store : Nat → Option (List Nat)) (K : Nat) : List Nat :=
  ((List.range K).map (fun i => (store (i + 1)).getD [])).flatten

/-- Concrete settings with two configured apps where component id
"comp" is registered in the backward-query dict to index 1. -/
def settingsTwoApps : Settings :=
  { user_configs :=
      [ { service := "svcA", upload_folder_root := "rootA", is_dash := true },
        { service := "svcB", upload_folder_root := "rootB", is_dash := true } ]
    user_configs_query := [("comp", 1)]
    user_configs_default := none }

/-- The snapshot built from one uploaded file "r/a" with total 1 file,
1 MB of 2 MB uploaded. -/
def statusOneFile : UploadStatus :=
  { uploaded_files := ["r/a"]
    latest_file := "r/a"
    n_uploaded := 1
    n_total := 1
    upload_id := none
    is_completed := true
    uploaded_size_mb := 1
    total_size_mb := 2
    progress := 1 / 2 }

/-- The snapshot delivered for file name "a.txt" uploaded under session
"u1" below root folder "r". -/
def statusSessionFile : UploadStatus :=
  { uploaded_files := ["r/u1/a.txt"]
    latest_file := "r/u1/a.txt"
    n_uploaded := 1
    n_total := 1
    upload_id := some "u1"
    is_completed := true
    uploaded_size_mb := 1
    total_size_mb := 1
    progress := 1 }

/-! ## Theorems -/

/-- Helper: every field of a successfully constructed snapshot, read
off from UploadStatusLegacy.init. -/
theorem init_ok_fields (files : List String) (n : Int) (u : ℚ) (t : ℚ)
    (uid : Option String) (st : UploadStatus)
    (h : UploadStatusLegacy.init files n u t uid = Except.ok st) :
    st.uploaded_files = files ∧ some st.latest_file = files.getLast? ∧
    st.n_uploaded = files.length ∧ st.n_total = n ∧ st.upload_id = uid ∧
    (st.is_completed = true ↔ (files.length : Int) = n) ∧
    st.uploaded_size_mb = u ∧ st.total_size_mb = t ∧ st.progress = u / t := by
  unfold UploadStatusLegacy.init at h
  split at h
  · exact absurd h (by simp)
  · rename_i latest hl
    dsimp only at h
    split at h
    · exact absurd h (by simp)
    · injection h with h2
      subst h2
      exact ⟨rfl, hl.symm, rfl, rfl, rfl, decide_eq_true_iff, rfl, rfl, rfl⟩

/-- Claim C1 (refuted on the code): lookup is claimed to resolve a
registered component id to user_configs[user_configs_query[id]], but
both _query_service_addr and _query_app_and_root discard the looked-up
index and fall back to user_configs[0]: with "comp" registered to index
1, the query dict yields index 1 whose entry has service "svcB" and
root "rootB", yet both lookup functions resolve to entry 0 ("svcA",
"rootA"). -/
theorem c1_registered_id_resolves_to_index_zero :
    dictGet settingsTwoApps.user_configs_query "comp" = some 1 ∧
    (settingsTwoApps.user_configs.get? 1).map (fun c => c.service) = some "svcB" ∧
    query_service_addr settingsTwoApps "comp" = some "svcA" ∧
    query_app_and_root settingsTwoApps "comp" =
      Except.ok
        ({ service := "svcA", upload_folder_root := "rootA", is_dash := true },
          "rootA") := by
  decide

/-- Claim C2: whenever the completion-callback wrapper delivers an
UploadStatus for the received file-name list, the uploaded_files paths
are root/upload_id/filename in input order when upload_id is truthy,
and root/filename when upload_id is None or empty. -/
theorem c2_callback_file_paths (root : String) (bump : Nat)
    (names : List String) (n : Int) (u : ℚ) (t : ℚ) (uid : Option String)
    (st : UploadStatus)
    (h : dashCallbackStatus root bump (some names) n u t uid = Except.ok st) :
    (∀ s, uid = some s → s ≠ "" →
      st.uploaded_files =
        names.map (fun filename => root ++ "/" ++ s ++ "/" ++ filename)) ∧
    ((uid = none ∨ uid = some "") →
      st.uploaded_files = names.map (fun filename => root ++ "/" ++ filename)) := by
  by_cases hb : bump = 0
  · rw [dashCallbackStatus, if_pos hb] at h; exact absurd h (by simp)
  · rw [dashCallbackStatus, if_neg hb] at h
    obtain ⟨h1, -⟩ := init_ok_fields _ _ _ _ _ _ h
    constructor
    · intro s hs hne
      subst hs
      rw [h1]
      simp [buildFilePaths, pathJoin, hne, String.append_assoc]
    · rintro (hu | hu) <;> subst hu <;> rw [h1] <;>
        simp [buildFilePaths, pathJoin, String.append_assoc]

/-- Witness for C2 at a concrete input: root "r", session "u1", one
file "a.txt". -/
theorem c2_callback_file_paths_witness :
    statusSessionFile.uploaded_files = ["r/u1/a.txt"] := by
  have h :=
    (c2_callback_file_paths "r" 1 ["a.txt"] 1 1 1 (some "u1") statusSessionFile
      (by norm_num [dashCallbackStatus, UploadStatusLegacy.init, buildFilePaths,
        pathJoin, statusSessionFile]; simp)).1 "u1" rfl (by decide)
  simpa using h

/-- Claim C3: a successfully built snapshot has n_uploaded equal to the
length of uploaded_files, latest_file equal to the last element of
uploaded_files, and is_completed exactly when n_uploaded = n_total. -/
theorem c3_snapshot_counters (files : List String) (n : Int) (u : ℚ) (t : ℚ)
    (uid : Option String) (st : UploadStatus)
    (h : UploadStatusLegacy.init files n u t uid = Except.ok st) :
    st.n_uploaded = st.uploaded_files.length ∧
    some st.latest_file = st.uploaded_files.getLast? ∧
    (st.is_completed = true ↔ (st.n_uploaded : Int) = st.n_total) := by
  obtain ⟨h1, h2, h3, h4, -, h6, -⟩ := init_ok_fields files n u t uid st h
  refine ⟨by rw [h1, h3], by rw [h1, h2], ?_⟩
  rw [h3, h4]
  exact h6

/-- Witness for C3 at a concrete input: one uploaded file out of one. -/
theorem c3_snapshot_counters_witness :
    statusOneFile.n_uploaded = statusOneFile.uploaded_files.length ∧
    some statusOneFile.latest_file = statusOneFile.uploaded_files.getLast? ∧
    (statusOneFile.is_completed = true ↔
      (statusOneFile.n_uploaded : Int) = statusOneFile.n_total) :=
  c3_snapshot_counters ["r/a"] 1 1 2 none statusOneFile
    (by norm_num [UploadStatusLegacy.init, statusOneFile])

/-- Claim C4: a snapshot built with uploaded size u and nonzero total
size t has progress u / t. -/
theorem c4_progress_is_quotient (files : List String) (n : Int) (u : ℚ)
    (t : ℚ) (uid : Option String) (st : UploadStatus) (ht : t ≠ 0)
    (h : UploadStatusLegacy.init files n u t uid = Except.ok st) :
    st.progress = u / t := by
  obtain ⟨-, -, -, -, -, -, -, -, h9⟩ := init_ok_fields files n u t uid st h
  exact h9

/-- Witness for C4 at a concrete input: 1 MB of 2 MB uploaded. -/
theorem c4_progress_is_quotient_witness : statusOneFile.progress = 1 / 2 :=
  c4_progress_is_quotient ["r/a"] 1 1 2 none statusOneFile (by norm_num)
    (by norm_num [UploadStatusLegacy.init, statusOneFile])

/-- Claim C8 as stated is refuted: called with an empty uploaded_files
sequence and total_size_mb = 0, the constructor raises IndexError (from
uploaded_files[-1], computed before the division), not
ZeroDivisionError. -/
theorem c8_zero_total_counterexample :
    UploadStatusLegacy.init [] 0 0 0 none = Except.error PyError.indexError ∧
    Except.error PyError.indexError ≠
      (Except.error PyError.zeroDivisionError : Except PyError UploadStatus) := by
  exact ⟨rfl, by simp⟩

/-- Claim C8 (amended): for every call with a non-empty uploaded_files
sequence and total_size_mb = 0, a ZeroDivisionError escapes: the
division computing progress is not guarded. -/
theorem c8_zero_total_division_error (files : List String) (n : Int) (u : ℚ)
    (uid : Option String) (hne : files ≠ []) :
    UploadStatusLegacy.init files n u 0 uid =
      Except.error PyError.zeroDivisionError := by
  unfold UploadStatusLegacy.init
  cases hl : files.getLast? with
  | none =>
    exact absurd (by simpa using congrArg Option.isSome hl)
      (by simpa using List.getLast?_isSome.mpr hne)
  | some latest => simp

/-- Witness for the amended C8 at a concrete input. -/
theorem c8_zero_total_division_error_witness :
    UploadStatusLegacy.init ["r/a"] 1 1 0 none =
      Except.error PyError.zeroDivisionError :=
  c8_zero_total_division_error ["r/a"] 1 1 none (by decide)

/-- Claim C9: the constructor applied to an empty uploaded_files
sequence raises IndexError, and since the callback wrapper forwards the
(possibly empty or absent) file-name list unchecked, the wrapper
propagates the same IndexError whenever the bump counter lets it run. -/
theorem c9_empty_files_index_error (n : Int) (u : ℚ) (t : ℚ)
    (uid : Option String) :
    UploadStatusLegacy.init [] n u t uid = Except.error PyError.indexError ∧
    (∀ (T : Type) (cb : UploadStatus → T) (root : String) (bump : Nat),
      bump ≠ 0 →
        dashCallbackWrapper cb root bump (some []) n u t uid =
          Except.error PyError.indexError) ∧
    (∀ (T : Type) (cb : UploadStatus → T) (root : String) (bump : Nat),
      bump ≠ 0 →
        dashCallbackWrapper cb root bump none n u t uid =
          Except.error PyError.indexError) := by
  refine ⟨rfl, ?_, ?_⟩ <;> intro T cb root bump hb <;>
    simp [dashCallbackWrapper, dashCallbackStatus, buildFilePaths, hb,
      UploadStatusLegacy.init, Except.map]

/-- Witness for C9 at a concrete input. -/
theorem c9_empty_files_index_error_witness :
    UploadStatusLegacy.init [] 3 1 2 none = Except.error PyError.indexError ∧
    dashCallbackWrapper (fun st => st) "r" 1 (some []) 3 1 2 none =
      Except.error PyError.indexError :=
  ⟨(c9_empty_files_index_error 3 1 2 none).1,
    (c9_empty_files_index_error 3 1 2 none).2.1 UploadStatus (fun st => st) "r" 1
      (by decide)⟩

/-- Claim C10: with a falsy dashAppCallbackBump value the wrapper
raises PreventUpdate for every user callback (so the callback is never
invoked), and the Upload component initialises dashAppCallbackBump to
0. -/
theorem c10_falsy_bump_prevents_update {T : Type} (cb : UploadStatus → T)
    (root : String) (bump : Nat) (names : Option (List String)) (n : Int)
    (u : ℚ) (t : ℚ) (uid : Option String) (hb : bump = 0) :
    dashCallbackWrapper cb root bump names n u t uid =
      Except.error PyError.preventUpdate ∧
    ∀ (s : Settings) (id : String) (mfs mts cs : Nat) (uid2 : String)
      (mf : Nat) (args : UploadArgs),
        uploadComponent s id mfs mts cs uid2 mf = some args →
        args.dashAppCallbackBump = 0 := by
  constructor
  · subst hb
    simp [dashCallbackWrapper, dashCallbackStatus, Except.map]
  · intro s id mfs mts cs uid2 mf args h
    unfold uploadComponent at h
    cases hq : query_service_addr s id with
    | none => rw [hq] at h; exact absurd h (by simp)
    | some sv =>
      rw [hq] at h
      simp only [Option.map] at h
      injection h with h2
      rw [← h2]

/-- Witness for C10 at a concrete input: bump value 0. -/
theorem c10_falsy_bump_prevents_update_witness :
    dashCallbackWrapper (fun st => st) "r" 0 none 0 1 1 none =
      Except.error PyError.preventUpdate :=
  (c10_falsy_bump_prevents_update (fun st => st) "r" 0 none 0 1 1 none rfl).1

/-- Helper: with a positive wait interval and nonnegative attempt
durations, the retry loop finishes within any fuel exceeding the
remaining time budget divided by the wait interval. -/
theorem retryRun_isSome {E A : Type} (attempt : Nat → Except E A)
    (dur : Nat → ℚ) (w m : ℚ) (hd : ∀ i, 0 ≤ dur i) :
    ∀ (n i : Nat) (elapsed : ℚ), m - elapsed < (n : ℚ) * w →
      (retryRun attempt dur w m (n + 1) i elapsed).isSome := by
  intro n
  induction n with
  | zero =>
    intro i elapsed hlt
    simp only [retryRun]
    cases hA : attempt i with
    | ok v => simp
    | error e =>
      have hm : m < elapsed + dur i := by
        have := hd i
        simp only [Nat.cast_zero, zero_mul] at hlt
        linarith
      simp [hm]
  | succ n ih =>
    intro i elapsed hlt
    simp only [retryRun]
    cases hA : attempt i with
    | ok v => simp
    | error e =>
      by_cases hm : m < elapsed + dur i
      · simp [hm]
      · simp only [hm, if_false]
        apply ih
        have := hd i
        push_cast at hlt
        push_cast
        linarith

/-- Claim C5: the retry wrapper terminates: with a positive wait
interval and attempts of nonnegative duration the loop always yields a
result within the computed iteration bound; a successful attempt stops
the loop at once, and a failing attempt past the max_time budget
re-raises its exception instead of retrying. -/
theorem c5_retry_terminates {E A : Type} (attempt : Nat → Except E A)
    (dur : Nat → ℚ) (w m : ℚ) (hw : 0 < w) (hd : ∀ i, 0 ≤ dur i) :
    (retryCall attempt dur w m).isSome ∧
    (∀ (fuel i : Nat) (elapsed : ℚ) (v : A), attempt i = Except.ok v →
      retryRun attempt dur w m (fuel + 1) i elapsed = some (Except.ok v)) ∧
    (∀ (fuel i : Nat) (elapsed : ℚ) (e : E), attempt i = Except.error e →
      m < elapsed + dur i →
      retryRun attempt dur w m (fuel + 1) i elapsed = some (Except.error e)) := by
  refine ⟨?_, ?_, ?_⟩
  · show (retryRun attempt dur w m ((Nat.ceil (m / w) + 1) + 1) 0 0).isSome
    apply retryRun_isSome attempt dur w m hd
    have h1 : m / w ≤ (Nat.ceil (m / w) : ℚ) := Nat.le_ceil _
    rw [div_le_iff₀ hw] at h1
    push_cast
    linarith
  · intro fuel i elapsed v hA
    simp [retryRun, hA]
  · intro fuel i elapsed e hA hlate
    simp [retryRun, hA, hlate]

/-- Witness for C5 at a concrete input: an always-failing attempt with
wait interval 1 and budget 2 still yields a result. -/
theorem c5_retry_terminates_witness :
    (retryCall (fun _ => (Except.error () : Except Unit Nat))
      (fun _ => 0) 1 2).isSome :=
  (c5_retry_terminates (fun _ => (Except.error () : Except Unit Nat))
    (fun _ => 0) 1 2 (by norm_num) (fun i => le_refl 0)).1

/-- Helper: running the loop at the k-th attempt's entry state reaches
the first success when every earlier attempt fails within budget. -/
theorem retryRun_reaches_success {E A : Type} (attempt : Nat → Except E A)
    (dur : Nat → ℚ) (w m : ℚ) (k : Nat) (v : A)
    (hk : attempt k = Except.ok v)
    (hfail : ∀ j, j < k → ∃ e, attempt j = Except.error e)
    (hwithin : ∀ j, j < k → elapsedBefore dur w j + dur j ≤ m) :
    ∀ (d j fuel : Nat), j + d = k → d < fuel →
      retryRun attempt dur w m fuel j (elapsedBefore dur w j) =
        some (Except.ok v) := by
  intro d
  induction d with
  | zero =>
    intro j fuel hjk hfuel
    obtain ⟨f2, rfl⟩ : ∃ f2, fuel = f2 + 1 := ⟨fuel - 1, by omega⟩
    have hj : j = k := by omega
    subst hj
    simp [retryRun, hk]
  | succ d ih =>
    intro j fuel hjk hfuel
    obtain ⟨f2, rfl⟩ : ∃ f2, fuel = f2 + 1 := ⟨fuel - 1, by omega⟩
    have hj : j < k := by omega
    obtain ⟨e, he⟩ := hfail j hj
    have hnot : ¬ m < elapsedBefore dur w j + dur j :=
      not_lt.mpr (hwithin j hj)
    simp only [retryRun, he, hnot, if_false]
    have hstep : elapsedBefore dur w j + dur j + w = elapsedBefore dur w (j + 1) :=
      rfl
    rw [hstep]
    exact ih (j + 1) f2 (by omega) (by omega)

/-- Claim C6: when the k-th attempt is the first to succeed and every
earlier failure happens within the max_time budget, the wrapper returns
the successful attempt's value and no earlier exception escapes. -/
theorem c6_retry_returns_first_success {E A : Type}
    (attempt : Nat → Except E A) (dur : Nat → ℚ) (w m : ℚ) (k : Nat) (v : A)
    (hk : attempt k = Except.ok v)
    (hfail : ∀ j, j < k → ∃ e, attempt j = Except.error e)
    (hwithin : ∀ j, j < k → elapsedBefore dur w j + dur j ≤ m) :
    ∀ fuel, k < fuel →
      retryRun attempt dur w m fuel 0 0 = some (Except.ok v) := by
  intro fuel hfuel
  have h0 : retryRun attempt dur w m fuel 0 0 =
      retryRun attempt dur w m fuel 0 (elapsedBefore dur w 0) := rfl
  rw [h0]
  exact retryRun_reaches_success attempt dur w m k v hk hfail hwithin k 0 fuel
    (by omega) hfuel

/-- Witness for C6 at a concrete input: the first attempt fails within
budget, the second succeeds with value 42. -/
theorem c6_retry_returns_first_success_witness :
    retryRun (fun i => if i = 0 then Except.error () else Except.ok 42)
      (fun _ => 1) 1 10 2 0 0 = some (Except.ok 42) :=
  c6_retry_returns_first_success
    (fun i => if i = 0 then Except.error () else Except.ok 42)
    (fun _ => 1) 1 10 1 42 rfl
    (by intro j hj; have hj0 : j = 0 := by omega
        subst hj0; exact ⟨(), rfl⟩)
    (by intro j hj; have hj0 : j = 0 := by omega
        subst hj0; norm_num [elapsedBefore])
    2 (by omega)

/-- Helper: folding chunk writes never touches an index absent from the
written keys. -/
theorem storeWrites_not_mem (l : List (Nat × List Nat))
    (init : Nat → Option (List Nat)) (j : Nat)
    (hj : j ∉ l.map Prod.fst) :
    l.foldl (fun store p => fun i => if i = p.1 then some p.2 else store i)
      init j = init j := by
  induction l generalizing init with
  | nil => rfl
  | cons p rest ih =>
    simp only [List.map_cons, List.mem_cons] at hj
    push_neg at hj
    rw [List.foldl_cons, ih _ hj.2]
    simp [hj.1]

/-- Helper: after folding writes whose keys are distinct, the store
holds exactly the payload written for each key. -/
theorem storeWrites_lookup (l : List (Nat × List Nat)) (j : Nat)
    (v : List Nat) (init : Nat → Option (List Nat))
    (hnd : (l.map Prod.fst).Nodup) (hmem : (j, v) ∈ l) :
    l.foldl (fun store p => fun i => if i = p.1 then some p.2 else store i)
      init j = some v := by
  induction l generalizing init with
  | nil => cases hmem
  | cons p rest ih =>
    rw [List.foldl_cons]
    simp only [List.map_cons, List.nodup_cons] at hnd
    rcases List.mem_cons.mp hmem with heq | hmem2
    · have hj1 : p.1 = j := by rw [← heq]
      have hnotin : j ∉ rest.map Prod.fst := hj1 ▸ hnd.1
      rw [storeWrites_not_mem _ _ _ hnotin, ← heq]
      simp
    · exact ih _ hnd.2 hmem2

/-- Claim C7 (modelled from the spec, httprequesthandler.py being
absent from src/): for every permutation of the arrival order of the K
chunks of a file, the assembled bytes equal the concatenation of the
chunk payloads in ascending index order. -/
theorem c7_assembly_order_independent (K : Nat) (payload : Nat → List Nat)
    (arrival : List (Nat × List Nat))
    (hperm : List.Perm arrival
      ((List.range K).map (fun i => (i + 1, payload (i + 1))))) :
    assembleChunks (storeChunks arrival) K =
      ((List.range K).map (fun i => payload (i + 1))).flatten := by
  unfold assembleChunks
  congr 1
  apply List.map_congr_left
  intro i hi
  have hmem : (i + 1, payload (i + 1)) ∈ arrival :=
    hperm.symm.subset (List.mem_map.mpr ⟨i, hi, rfl⟩)
  have hnd : (arrival.map Prod.fst).Nodup := by
    refine ((hperm.map Prod.fst).nodup_iff).mpr ?_
    rw [List.map_map]
    exact List.Nodup.map (fun a b hab => by simpa using hab) (List.nodup_range K)
  rw [show storeChunks arrival (i + 1) = some (payload (i + 1)) from
    storeWrites_lookup arrival (i + 1) (payload (i + 1)) _ hnd hmem]
  rfl

/-- Witness for C7 at a concrete input: chunks 2 then 1 arriving out of
order assemble to the payloads in ascending index order. -/
theorem c7_assembly_order_independent_witness :
    assembleChunks (storeChunks [(2, [7, 8]), (1, [5])]) 2 = [5, 7, 8] := by
  rw [c7_assembly_order_independent 2
    (fun i => if i = 1 then [5] else [7, 8]) [(2, [7, 8]), (1, [5])] (by decide)]
  decide

end DashUploader
